import Mathlib

/-!
Verification development for the Aztech smart-plug / smart-bulb adapter
(`pkg/aztech_device.py`).  The Python module is shallowly embedded: vendor
snapshot dicts become Lean structures, the adapter classes' pure helper
methods become Lean functions, constructor-time capability detection becomes
a pure `build` function producing the capability-tag list and the ordered
property map, and the polling loop becomes a step function over a list of
per-cycle fetch outcomes.
-/

/-- Python substring matching at the head: `charsMatchAt needle text` is true
iff `needle` is an initial segment of `text`. -/
def charsMatchAt : List Char → List Char → Bool
  | [], _ => true
  | _ :: _, [] => false
  | a :: as, b :: bs => a == b && charsMatchAt as bs

/-- Substring occurrence anywhere in a character list. -/
def charsHaveSub (needle : List Char) : List Char → Bool
  | [] => charsMatchAt needle []
  | c :: rest => charsMatchAt needle (c :: rest) || charsHaveSub needle rest

/-- Python's `needle in hay` test on strings (substring containment). -/
def strContainsSub (hay needle : String) : Bool :=
  charsHaveSub needle.toList hay.toList

/-- A child entry of a multi-outlet device's `sys_info['children']` list:
the fields the adapter reads (`alias` — spelled `aliasName` here because
`alias` is a Lean keyword — and `state`). -/
structure ChildInfo where
  aliasName : String
  state : Int
deriving Repr, DecidableEq

/-- The vendor status snapshot (`kyla_dev.sys_info`): the keys the adapter
reads.  `dev_name` and `brightness` are optional because the adapter tests
for their presence (`'dev_name' not in sysinfo`, `'brightness' in sysinfo`);
the remaining keys are read unconditionally. -/
structure SysInfo where
  model : String
  aliasName : String
  children : List ChildInfo
  dev_name : Option String
  feature : String
  relay_state : Int
  led_off : Int
  brightness : Option Int
  is_dimmable : Int
  is_color : Int
  is_variable_color_temp : Int
deriving Repr, DecidableEq

/-- The nested `dft_on_state` record of a bulb's light state. -/
structure LightSubState where
  hue : Int
  saturation : Int
  brightness : Int
  color_temp : Int
deriving Repr, DecidableEq

/-- The bulb light-state snapshot (`kyla_dev.get_light_state()`): on/off
flag, live color fields, and the nested default-on sub-state. -/
structure LightState where
  on_off : Int
  hue : Int
  saturation : Int
  brightness : Int
  color_temp : Int
  dft_on_state : LightSubState
deriving Repr, DecidableEq

/-- The energy-meter snapshot (`kyla_dev.get_emeter_realtime()`): each
reading may be present under a base-unit key or a milli-unit key, or absent.
Numeric values are rationals (Python numbers under true division). -/
structure Emeter where
  power : Option ℚ
  power_mw : Option ℚ
  voltage : Option ℚ
  voltage_mv : Option ℚ
  current : Option ℚ
  current_ma : Option ℚ
deriving Repr, DecidableEq

/-- The vendor client handle (pyKyla `SmartDevice`), modelled as the values
its snapshot accessors return to the adapter at a given moment. -/
structure KylaDev where
  sys_info : SysInfo
  emeter_realtime : Emeter
  light_state : LightState
  valid_temperature_range : Int × Int
deriving Repr, DecidableEq

/-- Modelled from the spec: `SmartDevice.FEATURE_ENERGY_METER` lives in the
external pyKyla client, not in this repository's sources; its value is fixed
by the spec's §8 example, where the feature list "TIM:ENE" enables the
energy meter. -/
def SmartDevice.FEATURE_ENERGY_METER : String := "ENE"

/-- A property value as passed to the gateway property constructor. -/
inductive PropValue
  | b (v : Bool)
  | i (v : Int)
  | n (v : ℚ)
  | s (v : String)
deriving Repr, DecidableEq

/-- The metadata dict passed to a property constructor (`@type`, `title`,
`type`, and the optional keys the adapter sometimes sets). -/
structure PropMeta where
  atType : Option String
  title : String
  type : String
  unit : Option String := none
  minimum : Option Int := none
  maximum : Option Int := none
  enum : Option (List String) := none
  readOnly : Option Bool := none
deriving Repr, DecidableEq

/-- The data a property holds at construction: the adapter's property
classes (`AztechPlugProperty` / `AztechBulbProperty`) store the name, the
metadata dict and the initial value they are constructed with. -/
structure AztechPropertyData where
  name : String
  description : PropMeta
  value : PropValue
deriving Repr, DecidableEq

/-- Source `AztechDevice.power`: the base-unit key `power` wins, else the
milli-unit key `power_mw` divided by 1000, else absent. -/
def AztechDevice.power (emeter : Emeter) : Option ℚ :=
  match emeter.power with
  | some p => some p
  | none =>
    match emeter.power_mw with
    | some p => some (p / 1000)
    | none => none

/-- Source `AztechDevice.voltage`: `voltage`, else `voltage_mv / 1000`, else absent. -/
def AztechDevice.voltage (emeter : Emeter) : Option ℚ :=
  match emeter.voltage with
  | some v => some v
  | none =>
    match emeter.voltage_mv with
    | some v => some (v / 1000)
    | none => none

/-- Source `AztechDevice.current`: `current`, else `current_ma / 1000`, else absent. -/
def AztechDevice.current (emeter : Emeter) : Option ℚ :=
  match emeter.current with
  | some c => some c
  | none =>
    match emeter.current_ma with
    | some c => some (c / 1000)
    | none => none

/-- Python's `str.split(sep)` for a one-character separator, on character
lists: splitting the empty string yields one empty field, and each
separator occurrence starts a new field. -/
def splitChars (sep : Char) : List Char → List (List Char)
  | [] => [[]]
  | c :: rest =>
    if c == sep then
      [] :: splitChars sep rest
    else
      match splitChars sep rest with
      | [] => [[c]]
      | w :: ws => (c :: w) :: ws

/-- Python's `s.split(sep)` for a one-character separator. -/
def pySplit (s : String) (sep : Char) : List String :=
  (splitChars sep s.toList).map (fun cs => String.mk cs)

/-- Source `AztechPlug.has_emeter`: split the colon-separated `feature` string and
test membership of the energy-meter token. -/
def AztechPlug.has_emeter (sysinfo : SysInfo) : Bool :=
  (pySplit sysinfo.feature ':').contains SmartDevice.FEATURE_ENERGY_METER

/-- Source `AztechPlug.is_on`: for `index ≥ 0` read `children[index]['state']`
(an out-of-range index raises in Python, modelled as `none`); otherwise
read the top-level `relay_state`.  Python `bool` on an int is `≠ 0`. -/
def AztechPlug.is_on (index : Int) (sysinfo : SysInfo) : Option Bool :=
  if 0 ≤ index then
    (sysinfo.children.get? index.toNat).map (fun c => c.state != 0)
  else
    some (sysinfo.relay_state != 0)

/-- Source `AztechPlug.is_led_on`: `bool(1 - sysinfo['led_off'])`. -/
def AztechPlug.is_led_on (sysinfo : SysInfo) : Bool :=
  (1 - sysinfo.led_off) != 0

/-- Source `AztechPlug.is_dimmable`: `'brightness' in sysinfo`. -/
def AztechPlug.is_dimmable (sysinfo : SysInfo) : Bool :=
  sysinfo.brightness.isSome

/-- Source `AztechPlug.brightness`: `int(sysinfo['brightness'])` (raises when the
key is absent, modelled as `none`). -/
def AztechPlug.brightness (sysinfo : SysInfo) : Option Int :=
  sysinfo.brightness

/-- Metadata of the `instantaneousPower` property. -/
def powerMeta : PropMeta :=
  { atType := some "InstantaneousPowerProperty", title := "Power",
    type := "number", unit := some "watt" }

/-- Metadata of the `voltage` property. -/
def voltageMeta : PropMeta :=
  { atType := some "VoltageProperty", title := "Voltage",
    type := "number", unit := some "volt" }

/-- Metadata of the `current` property. -/
def currentMeta : PropMeta :=
  { atType := some "CurrentProperty", title := "Current",
    type := "number", unit := some "ampere" }

/-- Metadata of the plug's `level` property. -/
def levelMeta : PropMeta :=
  { atType := some "LevelProperty", title := "Level", type := "integer",
    unit := some "percent", minimum := some 0, maximum := some 100 }

/-- Metadata of the `on` property. -/
def onMeta : PropMeta :=
  { atType := some "OnOffProperty", title := "On/Off", type := "boolean" }

/-- Metadata of the `led-on` property (no `@type` tag in the source). -/
def ledMeta : PropMeta :=
  { atType := none, title := "LED On/Off", type := "boolean" }

/-- One property-map entry created only when the extracted reading is
present (the source's `if power is not None:` pattern). -/
def optEntry {γ : Type} (o : Option γ) (f : γ → String × AztechPropertyData) :
    List (String × AztechPropertyData) :=
  match o with
  | some v => [f v]
  | none => []

/-- The observable result of `AztechPlug.__init__`: the `_type` tag list,
the insertion-ordered `properties` map, and whether the constructor called
`get_emeter_realtime()`. -/
structure PlugDevice where
  typeTags : List String
  properties : List (String × AztechPropertyData)
  fetchedEmeter : Bool
deriving Repr, DecidableEq

/-- Source `AztechPlug.__init__` as a pure function of the vendor handle's
snapshot values: capability detection and property construction, in source
order.  Tags: `OnOffSwitch`; `SmartPlug` unless `dev_name` contains
"Light Switch"; `EnergyMonitor` when the emeter feature is present and the
power reading extracts; `MultiLevelSwitch` when `brightness` is present.
Properties (insertion order): `instantaneousPower`/`voltage`/`current`
(emeter branch), `level` (dimmable branch), `on`, `led-on`.  A failing
child-index lookup for the `on` value aborts construction (`none`). -/
def AztechPlug.build (dev : KylaDev) (index : Int) : Option PlugDevice :=
  let sysinfo := dev.sys_info
  (AztechPlug.is_on index sysinfo).map fun onVal =>
    let emOpt : Option Emeter :=
      if AztechPlug.has_emeter sysinfo then some dev.emeter_realtime else none
    { typeTags :=
        ["OnOffSwitch"]
        ++ (match sysinfo.dev_name with
            | none => ["SmartPlug"]
            | some n => if strContainsSub n "Light Switch" then [] else ["SmartPlug"])
        ++ (match emOpt with
            | some em =>
              (match AztechDevice.power em with
               | some _ => ["EnergyMonitor"]
               | none => [])
            | none => [])
        ++ (match sysinfo.brightness with
            | some _ => ["MultiLevelSwitch"]
            | none => []),
      properties :=
        (match emOpt with
         | some em =>
           optEntry (AztechDevice.power em) (fun v =>
             ("instantaneousPower", ⟨"instantaneousPower", powerMeta, PropValue.n v⟩))
           ++ (optEntry (AztechDevice.voltage em) (fun v =>
                ("voltage", ⟨"voltage", voltageMeta, PropValue.n v⟩))
           ++ optEntry (AztechDevice.current em) (fun v =>
                ("current", ⟨"current", currentMeta, PropValue.n v⟩)))
         | none => [])
        ++ ((match sysinfo.brightness with
             | some b => [("level", ⟨"level", levelMeta, PropValue.i b⟩)]
             | none => [])
        ++ [("on", ⟨"on", onMeta, PropValue.b onVal⟩),
            ("led-on", ⟨"led-on", ledMeta, PropValue.b (AztechPlug.is_led_on sysinfo)⟩)]),
      fetchedEmeter := AztechPlug.has_emeter sysinfo }

/-- Source `AztechBulb.is_dimmable`: `bool(sysinfo['is_dimmable'])`. -/
def AztechBulb.is_dimmable (sysinfo : SysInfo) : Bool :=
  sysinfo.is_dimmable != 0

/-- Source `AztechBulb.is_color`: `bool(sysinfo['is_color'])`. -/
def AztechBulb.is_color (sysinfo : SysInfo) : Bool :=
  sysinfo.is_color != 0

/-- Source `AztechBulb.is_variable_color_temp`: `bool(sysinfo['is_variable_color_temp'])`. -/
def AztechBulb.is_variable_color_temp (sysinfo : SysInfo) : Bool :=
  sysinfo.is_variable_color_temp != 0

/-- Source `AztechBulb.is_on`: `bool(light_state['on_off'])`. -/
def AztechBulb.is_on (light_state : LightState) : Bool :=
  light_state.on_off != 0

/-- Source `AztechBulb.color_temp`: when the light is off, rebind to the nested
`dft_on_state` record, then return `int(..['color_temp'])`. -/
def AztechBulb.color_temp (light_state : LightState) : Int :=
  if AztechBulb.is_on light_state then
    light_state.color_temp
  else
    light_state.dft_on_state.color_temp

/-- Source `AztechBulb.color_mode`: after the same off-state rebinding, "color"
when the color temperature is 0, else "temperature". -/
def AztechBulb.color_mode (light_state : LightState) : String :=
  if AztechBulb.is_on light_state then
    (if light_state.color_temp == 0 then "color" else "temperature")
  else
    (if light_state.dft_on_state.color_temp == 0 then "color" else "temperature")

/-- Source `AztechBulb.hsv`: after the off-state rebinding, the hue, saturation,
and `int(brightness * 255 / 100)` (Python true division then `int`
truncation, i.e. truncating integer division for these operands). -/
def AztechBulb.hsv (light_state : LightState) : Int × Int × Int :=
  if AztechBulb.is_on light_state then
    (light_state.hue, light_state.saturation,
     (light_state.brightness * 255).tdiv 100)
  else
    (light_state.dft_on_state.hue, light_state.dft_on_state.saturation,
     (light_state.dft_on_state.brightness * 255).tdiv 100)

/-- Source `AztechBulb.brightness`: after the off-state rebinding,
`int(..['brightness'])`. -/
def AztechBulb.brightness (light_state : LightState) : Int :=
  if AztechBulb.is_on light_state then
    light_state.brightness
  else
    light_state.dft_on_state.brightness

/-- Metadata of the bulb's `color` property. -/
def colorMeta : PropMeta :=
  { atType := some "ColorProperty", title := "Color", type := "string" }

/-- Metadata of the bulb's `colorTemperature` property, bounded by the
device-reported valid temperature range. -/
def colorTempMeta (range : Int × Int) : PropMeta :=
  { atType := some "ColorTemperatureProperty", title := "Color Temperature",
    type := "integer", unit := some "kelvin",
    minimum := some range.1, maximum := some range.2 }

/-- Metadata of the bulb's read-only enumerated `colorMode` property. -/
def colorModeMeta : PropMeta :=
  { atType := some "ColorModeProperty", title := "Color Mode",
    type := "string", enum := some ["color", "temperature"],
    readOnly := some true }

/-- Metadata of the bulb's `level` (brightness) property. -/
def brightnessMeta : PropMeta :=
  { atType := some "BrightnessProperty", title := "Brightness",
    type := "integer", unit := some "percent",
    minimum := some 0, maximum := some 100 }

/-- The observable result of `AztechBulb.__init__`: the `_type` tag list
and the insertion-ordered `properties` map. -/
structure BulbDevice where
  typeTags : List String
  properties : List (String × AztechPropertyData)
deriving Repr, DecidableEq

/-- Source `AztechBulb.__init__` as a pure function of the vendor handle's
snapshot values, parametrized by the HSV→RGB converter (`util.hsv_to_rgb`,
whose output no claim depends on).  Tag list in source order:
`OnOffSwitch`, `Light`, then `ColorControl` appended in the color branch
and, when not already present, in the variable-color-temperature branch,
then `EnergyMonitor` when the power reading extracts.  Properties
(insertion order): `color`, `colorTemperature`, `colorMode`, `level`,
`instantaneousPower`, `voltage`, `current`, `on`, each under its source
condition. -/
def AztechBulb.build (hsvToRgb : Int → Int → Int → String) (dev : KylaDev) :
    BulbDevice :=
  let sysinfo := dev.sys_info
  let state := dev.light_state
  let emeter := dev.emeter_realtime
  let t1 := ["OnOffSwitch", "Light"]
    ++ (if AztechBulb.is_color sysinfo then ["ColorControl"] else [])
  let t2 :=
    if AztechBulb.is_variable_color_temp sysinfo && !(t1.contains "ColorControl")
    then t1 ++ ["ColorControl"] else t1
  let t3 := t2
    ++ (match AztechDevice.power emeter with
        | some _ => ["EnergyMonitor"]
        | none => [])
  { typeTags := t3,
    properties :=
      (if AztechBulb.is_color sysinfo then
         [("color",
           ⟨"color", colorMeta,
            PropValue.s (hsvToRgb (AztechBulb.hsv state).1
              (AztechBulb.hsv state).2.1 (AztechBulb.hsv state).2.2)⟩)]
       else [])
      ++ ((if AztechBulb.is_variable_color_temp sysinfo then
            [("colorTemperature",
              ⟨"colorTemperature", colorTempMeta dev.valid_temperature_range,
               PropValue.i (AztechBulb.color_temp state)⟩)]
          else [])
      ++ ((if AztechBulb.is_color sysinfo && AztechBulb.is_variable_color_temp sysinfo then
            [("colorMode",
              ⟨"colorMode", colorModeMeta,
               PropValue.s (AztechBulb.color_mode state)⟩)]
          else [])
      ++ ((if AztechBulb.is_dimmable sysinfo then
            [("level",
              ⟨"level", brightnessMeta,
               PropValue.i (AztechBulb.brightness state)⟩)]
          else [])
      ++ (optEntry (AztechDevice.power emeter) (fun v =>
            ("instantaneousPower",
             ⟨"instantaneousPower", powerMeta, PropValue.n v⟩))
      ++ (optEntry (AztechDevice.voltage emeter) (fun v =>
            ("voltage", ⟨"voltage", voltageMeta, PropValue.n v⟩))
      ++ (optEntry (AztechDevice.current emeter) (fun v =>
            ("current", ⟨"current", currentMeta, PropValue.n v⟩))
      ++ [("on", ⟨"on", onMeta, PropValue.b (AztechBulb.is_on state)⟩)])))))) }

/-- The fixed poll cadence (`_POLL_INTERVAL = 5`). -/
def POLL_INTERVAL : Nat := 5

/-- Outcome of one vendor-client call inside a poll cycle: a value, or a
raised `SmartDeviceException`. -/
inductive FetchOutcome (α : Type)
  | ok (v : α)
  | err
deriving Repr, DecidableEq

/-- The vendor-side inputs to one plug poll cycle: the `sys_info` access
(which may raise, or yield `None`) and the emeter fetch (consulted only
when the feature flag enables it). -/
structure PlugPollInputs where
  sys : FetchOutcome (Option SysInfo)
  emeter : FetchOutcome Emeter
deriving Repr, DecidableEq

/-- Whether a plug poll cycle's vendor fetches fail: raised or `None`
status, or a raised emeter fetch on a device whose feature flag makes the
loop fetch the emeter. -/
def PlugPollInputs.fetchFailed (i : PlugPollInputs) : Bool :=
  match i.sys with
  | .err => true
  | .ok none => true
  | .ok (some si) =>
    AztechPlug.has_emeter si &&
      (match i.emeter with
       | .err => true
       | .ok _ => false)

/-- One iteration of `AztechPlug.poll`'s `while True:` body, parametrized
by the combined effect `upd` of the `prop.update(sysinfo, emeter)` calls
(the property classes live in `aztech_property.py`; the loop passes
`emeter = None` when the feature flag is off).  Raised
`SmartDeviceException`s from the fetches hit the `continue` branch, leaving
the property set untouched. -/
def AztechPlug.pollCycle {P : Type}
    (upd : List P → SysInfo → Option Emeter → List P)
    (i : PlugPollInputs) (props : List P) : List P :=
  match i.sys with
  | .err => props
  | .ok none => props
  | .ok (some si) =>
    if AztechPlug.has_emeter si then
      match i.emeter with
      | .err => props
      | .ok em => upd props si (some em)
    else
      upd props si none

/-- Source `AztechPlug.poll` over a finite prefix of cycles: each cycle sleeps
`POLL_INTERVAL` time units (tracked by the clock component) and then runs
the cycle body; the loop itself never stops or throws, so every listed
cycle is processed. -/
def AztechPlug.pollRun {P : Type}
    (upd : List P → SysInfo → Option Emeter → List P) :
    List PlugPollInputs → List P × Nat → List P × Nat
  | [], st => st
  | i :: rest, st =>
    AztechPlug.pollRun upd rest
      (AztechPlug.pollCycle upd i st.1, st.2 + POLL_INTERVAL)

/-- The vendor-side inputs to one bulb poll cycle: `sys_info` access,
emeter fetch, light-state fetch (the bulb loop performs all three each
cycle, in that order). -/
structure BulbPollInputs where
  sys : FetchOutcome (Option SysInfo)
  emeter : FetchOutcome Emeter
  light : FetchOutcome LightState
deriving Repr, DecidableEq

/-- Whether a bulb poll cycle's vendor fetches fail: raised or `None`
status, or a raised emeter or light-state fetch. -/
def BulbPollInputs.fetchFailed (i : BulbPollInputs) : Bool :=
  match i.sys with
  | .err => true
  | .ok none => true
  | .ok (some _) =>
    (match i.emeter with
     | .err => true
     | .ok _ =>
       match i.light with
       | .err => true
       | .ok _ => false)

/-- One iteration of `AztechBulb.poll`'s body, parametrized by the combined
effect `upd` of the `prop.update(sysinfo, state, emeter)` calls. -/
def AztechBulb.pollCycle {P : Type}
    (upd : List P → SysInfo → LightState → Emeter → List P)
    (i : BulbPollInputs) (props : List P) : List P :=
  match i.sys with
  | .err => props
  | .ok none => props
  | .ok (some si) =>
    match i.emeter with
    | .err => props
    | .ok em =>
      match i.light with
      | .err => props
      | .ok st => upd props si st em

/-- Source `AztechBulb.poll` over a finite prefix of cycles, with the same
sleep-then-fetch shape as the plug loop. -/
def AztechBulb.pollRun {P : Type}
    (upd : List P → SysInfo → LightState → Emeter → List P) :
    List BulbPollInputs → List P × Nat → List P × Nat
  | [], st => st
  | i :: rest, st =>
    AztechBulb.pollRun upd rest
      (AztechBulb.pollCycle upd i st.1, st.2 + POLL_INTERVAL)

/-- Example light state: off, with default-on record hue 120, saturation 50,
brightness 80, color temperature 0 (the spec's §8 off-state example). -/
def exLightOff : LightState :=
  { on_off := 0, hue := 0, saturation := 0, brightness := 0, color_temp := 0,
    dft_on_state :=
      { hue := 120, saturation := 50, brightness := 80, color_temp := 0 } }

/-- Example emeter with only milli-unit keys (value 1500). -/
def exEmeterMilli : Emeter :=
  { power := none, power_mw := some 1500, voltage := none,
    voltage_mv := some 1500, current := none, current_ma := some 1500 }

/-- Example emeter with only base-unit keys (value 1.5). -/
def exEmeterBase : Emeter :=
  { power := some (3 / 2), power_mw := none, voltage := some (3 / 2),
    voltage_mv := none, current := some (3 / 2), current_ma := none }

/-- Example emeter with no readings at all. -/
def exEmeterNone : Emeter :=
  { power := none, power_mw := none, voltage := none,
    voltage_mv := none, current := none, current_ma := none }

/-- Example plug status with the energy-meter feature token ("TIM:ENE"). -/
def exSysEne : SysInfo :=
  { model := "HS110(US)", aliasName := "plug", children := [],
    dev_name := some "Smart Wi-Fi Plug", feature := "TIM:ENE",
    relay_state := 1, led_off := 0, brightness := none,
    is_dimmable := 0, is_color := 0, is_variable_color_temp := 0 }

/-- Example plug device: energy feature flagged, but the separately fetched
emeter snapshot carries no readings. -/
def exDevEneEmpty : KylaDev :=
  { sys_info := exSysEne, emeter_realtime := exEmeterNone,
    light_state := exLightOff, valid_temperature_range := (2500, 9000) }

/-- Example plug device: energy feature flagged, emeter `power = 2`. -/
def exDevEnePow : KylaDev :=
  { exDevEneEmpty with
    emeter_realtime := { exEmeterNone with power := some 2 } }

/-- Example plug status whose `dev_name` contains "Light Switch". -/
def exDevSwitch : KylaDev :=
  { exDevEneEmpty with
    sys_info := { exSysEne with
                  dev_name := some "Smart Wi-Fi Light Switch",
                  feature := "TIM" } }

/-- Example plug status with `led_off = 2` (truthy, but not 1). -/
def exDevLed2 : KylaDev :=
  { exDevEneEmpty with
    sys_info := { exSysEne with led_off := 2, feature := "TIM" } }

/-- Example dimmable plug status (`brightness` key present, value 75). -/
def exDevDim : KylaDev :=
  { exDevEneEmpty with
    sys_info := { exSysEne with brightness := some 75, feature := "TIM" } }

/-- Example multi-outlet plug status with one child in state 1. -/
def exDevChild : KylaDev :=
  { exDevEneEmpty with
    sys_info := { exSysEne with
                  children := [{ aliasName := "outlet 1", state := 1 }],
                  feature := "TIM" } }

/-- Example bulb status: color-capable, variable-color-temperature-capable,
dimmable. -/
def exDevBulb : KylaDev :=
  { sys_info :=
      { model := "LB130(US)", aliasName := "bulb", children := [],
        dev_name := none, feature := "TIM", relay_state := 0, led_off := 0,
        brightness := none, is_dimmable := 1, is_color := 1,
        is_variable_color_temp := 1 },
    emeter_realtime := exEmeterNone, light_state := exLightOff,
    valid_temperature_range := (2500, 9000) }

/-- A plug poll cycle whose status fetch raises. -/
def exPlugFail : PlugPollInputs := { sys := .err, emeter := .err }

/-- A bulb poll cycle whose status fetch raises. -/
def exBulbFail : BulbPollInputs := { sys := .err, emeter := .err, light := .err }

/-- The plug device built from `exDevSwitch` at index -1 (no SmartPlug
tag: the device name names a light switch). -/
def exSwitchBuilt : PlugDevice :=
  { typeTags := ["OnOffSwitch"],
    properties :=
      [("on", ⟨"on", onMeta, PropValue.b true⟩),
       ("led-on", ⟨"led-on", ledMeta, PropValue.b true⟩)],
    fetchedEmeter := false }

/-- The plug device built from `exDevEneEmpty` at index -1: the energy
feature is flagged and the emeter is fetched, but no reading extracts, so
no `EnergyMonitor` tag and no energy properties appear. -/
def exEneEmptyBuilt : PlugDevice :=
  { typeTags := ["OnOffSwitch", "SmartPlug"],
    properties :=
      [("on", ⟨"on", onMeta, PropValue.b true⟩),
       ("led-on", ⟨"led-on", ledMeta, PropValue.b true⟩)],
    fetchedEmeter := true }

/-- The plug device built from `exDevEnePow` at index -1: the power
reading extracts to 2 watts. -/
def exEnePowBuilt : PlugDevice :=
  { typeTags := ["OnOffSwitch", "SmartPlug", "EnergyMonitor"],
    properties :=
      [("instantaneousPower",
        ⟨"instantaneousPower", powerMeta, PropValue.n 2⟩),
       ("on", ⟨"on", onMeta, PropValue.b true⟩),
       ("led-on", ⟨"led-on", ledMeta, PropValue.b true⟩)],
    fetchedEmeter := true }

/-- The plug device built from `exDevLed2` at index -1: `led_off = 2`
yields a true `led-on` value (`bool(1 - 2)` is `bool(-1)`). -/
def exLed2Built : PlugDevice :=
  { typeTags := ["OnOffSwitch", "SmartPlug"],
    properties :=
      [("on", ⟨"on", onMeta, PropValue.b true⟩),
       ("led-on", ⟨"led-on", ledMeta, PropValue.b true⟩)],
    fetchedEmeter := false }

/-- The plug device built from `exDevDim` at index -1: the `brightness`
key is present, so the dimmable capability appears. -/
def exDimBuilt : PlugDevice :=
  { typeTags := ["OnOffSwitch", "SmartPlug", "MultiLevelSwitch"],
    properties :=
      [("level", ⟨"level", levelMeta, PropValue.i 75⟩),
       ("on", ⟨"on", onMeta, PropValue.b true⟩),
       ("led-on", ⟨"led-on", ledMeta, PropValue.b true⟩)],
    fetchedEmeter := false }

/-- The plug device built from `exDevChild` at index 0: the on value comes
from the child's state flag. -/
def exChildBuilt : PlugDevice :=
  { typeTags := ["OnOffSwitch", "SmartPlug"],
    properties :=
      [("on", ⟨"on", onMeta, PropValue.b true⟩),
       ("led-on", ⟨"led-on", ledMeta, PropValue.b true⟩)],
    fetchedEmeter := false }

/-- Lookup passes over a conditional singleton segment whose key differs. -/
theorem lookup_skip_if (k a : String) (c : Bool) (v : AztechPropertyData)
    (l2 : List (String × AztechPropertyData)) (h : (k == a) = false) :
    List.lookup k ((if c then [(a, v)] else []) ++ l2) = List.lookup k l2 := by
  cases c <;> simp [List.lookup, h]

/-- Lookup passes over an `optEntry` segment whose key differs. -/
theorem lookup_skip_opt {γ : Type} (k a : String) (o : Option γ)
    (f : γ → String × AztechPropertyData)
    (l2 : List (String × AztechPropertyData))
    (h : (k == a) = false) (hf : ∀ v, (f v).1 = a) :
    List.lookup k (optEntry o f ++ l2) = List.lookup k l2 := by
  cases o with
  | none => simp [optEntry]
  | some v =>
    have hv := hf v
    cases hfv : f v with
    | mk x y =>
      rw [hfv] at hv
      simp only at hv
      subst hv
      simp only [optEntry, hfv]
      simp [List.lookup, h]

/-- Lookup hits a head entry with the looked-up key. -/
theorem lookup_hit (k : String) (v : AztechPropertyData)
    (l2 : List (String × AztechPropertyData)) :
    List.lookup k ((k, v) :: l2) = some v := by
  simp [List.lookup]

/-- A failed-fetch plug cycle leaves the property set untouched. -/
theorem plug_cycle_unchanged {P : Type}
    (upd : List P → SysInfo → Option Emeter → List P)
    (i : PlugPollInputs) (props : List P) (h : i.fetchFailed = true) :
    AztechPlug.pollCycle upd i props = props := by
  cases hs : i.sys with
  | err => simp [AztechPlug.pollCycle, hs]
  | ok o =>
    cases o with
    | none => simp [AztechPlug.pollCycle, hs]
    | some si =>
      simp only [PlugPollInputs.fetchFailed, hs, Bool.and_eq_true] at h
      obtain ⟨h1, h2⟩ := h
      cases he : i.emeter with
      | err => simp [AztechPlug.pollCycle, hs, h1, he]
      | ok em => rw [he] at h2; exact absurd h2 (by simp)

/-- A failed-fetch bulb cycle leaves the property set untouched. -/
theorem bulb_cycle_unchanged {P : Type}
    (upd : List P → SysInfo → LightState → Emeter → List P)
    (i : BulbPollInputs) (props : List P) (h : i.fetchFailed = true) :
    AztechBulb.pollCycle upd i props = props := by
  cases hs : i.sys with
  | err => simp [AztechBulb.pollCycle, hs]
  | ok o =>
    cases o with
    | none => simp [AztechBulb.pollCycle, hs]
    | some si =>
      simp only [BulbPollInputs.fetchFailed, hs] at h
      cases he : i.emeter with
      | err => simp [AztechBulb.pollCycle, hs, he]
      | ok em =>
        rw [he] at h
        cases hl : i.light with
        | err => simp [AztechBulb.pollCycle, hs, he, hl]
        | ok st => rw [hl] at h; exact absurd h (by simp)

/-- C4: each extraction helper (power, voltage, current) returns the
base-unit key's value unchanged when present, otherwise the milli-unit
key's value divided by 1000 when present, and otherwise `none` — never
zero. -/
theorem extraction_unit_fallback (e : Emeter) :
    (∀ v, e.power = some v → AztechDevice.power e = some v) ∧
    (e.power = none → ∀ m, e.power_mw = some m →
      AztechDevice.power e = some (m / 1000)) ∧
    (e.power = none → e.power_mw = none → AztechDevice.power e = none) ∧
    (∀ v, e.voltage = some v → AztechDevice.voltage e = some v) ∧
    (e.voltage = none → ∀ m, e.voltage_mv = some m →
      AztechDevice.voltage e = some (m / 1000)) ∧
    (e.voltage = none → e.voltage_mv = none → AztechDevice.voltage e = none) ∧
    (∀ v, e.current = some v → AztechDevice.current e = some v) ∧
    (e.current = none → ∀ m, e.current_ma = some m →
      AztechDevice.current e = some (m / 1000)) ∧
    (e.current = none → e.current_ma = none → AztechDevice.current e = none) := by
  refine ⟨?_, ?_, ?_, ?_, ?_, ?_, ?_, ?_, ?_⟩ <;> intros <;>
    simp_all [AztechDevice.power, AztechDevice.voltage, AztechDevice.current]

/-- C4 witness: a snapshot with only milli-unit keys at 1500 extracts 1.5,
one with only base-unit keys at 1.5 extracts 1.5, and one with neither
extracts nothing — for all three helpers. -/
theorem extraction_unit_fallback_witness :
    AztechDevice.power exEmeterMilli = some (3 / 2) ∧
    AztechDevice.voltage exEmeterMilli = some (3 / 2) ∧
    AztechDevice.current exEmeterMilli = some (3 / 2) ∧
    AztechDevice.power exEmeterBase = some (3 / 2) ∧
    AztechDevice.voltage exEmeterBase = some (3 / 2) ∧
    AztechDevice.current exEmeterBase = some (3 / 2) ∧
    AztechDevice.power exEmeterNone = none ∧
    AztechDevice.voltage exEmeterNone = none ∧
    AztechDevice.current exEmeterNone = none := by
  have hm := extraction_unit_fallback exEmeterMilli
  have hb := extraction_unit_fallback exEmeterBase
  have hn := extraction_unit_fallback exEmeterNone
  have e1 := hm.2.1 rfl 1500 rfl
  have e2 := hm.2.2.2.2.1 rfl 1500 rfl
  have e3 := hm.2.2.2.2.2.2.2.1 rfl 1500 rfl
  have n1 : (1500 : ℚ) / 1000 = 3 / 2 := by norm_num
  rw [n1] at e1 e2 e3
  exact ⟨e1, e2, e3,
    hb.1 (3 / 2) rfl,
    hb.2.2.2.1 (3 / 2) rfl,
    hb.2.2.2.2.2.2.1 (3 / 2) rfl,
    hn.2.2.1 rfl rfl,
    hn.2.2.2.2.2.1 rfl rfl,
    hn.2.2.2.2.2.2.2.2 rfl rfl⟩

/-- C1: the reads backing the color (`hsv`), color-temperature,
color-mode, and brightness properties resolve their fields from the nested
`dft_on_state` record when the on/off flag is falsy, and from the
top-level light state when it is truthy. -/
theorem bulb_off_state_resolution (s : LightState) :
    (s.on_off = 0 →
      AztechBulb.color_temp s = s.dft_on_state.color_temp ∧
      AztechBulb.color_mode s =
        (if s.dft_on_state.color_temp = 0 then "color" else "temperature") ∧
      AztechBulb.hsv s = (s.dft_on_state.hue, s.dft_on_state.saturation,
        (s.dft_on_state.brightness * 255).tdiv 100) ∧
      AztechBulb.brightness s = s.dft_on_state.brightness) ∧
    (s.on_off ≠ 0 →
      AztechBulb.color_temp s = s.color_temp ∧
      AztechBulb.color_mode s =
        (if s.color_temp = 0 then "color" else "temperature") ∧
      AztechBulb.hsv s = (s.hue, s.saturation, (s.brightness * 255).tdiv 100) ∧
      AztechBulb.brightness s = s.brightness) := by
  constructor <;> intro h <;>
    simp [AztechBulb.color_temp, AztechBulb.color_mode, AztechBulb.hsv,
      AztechBulb.brightness, AztechBulb.is_on, h, beq_iff_eq]

/-- C1 witness: the spec's off-state example
`{on_off:0, dft_on_state:{hue:120, saturation:50, brightness:80,
color_temp:0}}` resolves every read from the default-on record, in
particular color-mode "color" and brightness 80. -/
theorem bulb_off_state_resolution_witness :
    exLightOff.on_off = 0 ∧
    (AztechBulb.color_temp exLightOff = exLightOff.dft_on_state.color_temp ∧
     AztechBulb.color_mode exLightOff =
       (if exLightOff.dft_on_state.color_temp = 0 then "color" else "temperature") ∧
     AztechBulb.hsv exLightOff =
       (exLightOff.dft_on_state.hue, exLightOff.dft_on_state.saturation,
        (exLightOff.dft_on_state.brightness * 255).tdiv 100) ∧
     AztechBulb.brightness exLightOff = exLightOff.dft_on_state.brightness) ∧
    AztechBulb.color_mode exLightOff = "color" ∧
    AztechBulb.brightness exLightOff = 80 :=
  ⟨rfl, (bulb_off_state_resolution exLightOff).1 rfl, by decide, by decide⟩

/-- C3: a poll cycle whose vendor fetch fails (raised exception or `None`
status) mutates no property, escapes no exception (the cycle function is
total), and hands the unchanged property set to the remaining cycles after
the fixed 5-unit sleep — for plugs and bulbs, and for any behavior of the
properties' update methods. -/
theorem poll_fetch_failure_skips_cycle {P Q : Type}
    (updP : List P → SysInfo → Option Emeter → List P)
    (updB : List Q → SysInfo → LightState → Emeter → List Q)
    (ip : PlugPollInputs) (ib : BulbPollInputs)
    (restP : List PlugPollInputs) (restB : List BulbPollInputs)
    (propsP : List P) (propsB : List Q) (cp cb : Nat)
    (hp : ip.fetchFailed = true) (hb : ib.fetchFailed = true) :
    POLL_INTERVAL = 5 ∧
    AztechPlug.pollCycle updP ip propsP = propsP ∧
    AztechBulb.pollCycle updB ib propsB = propsB ∧
    AztechPlug.pollRun updP (ip :: restP) (propsP, cp) =
      AztechPlug.pollRun updP restP (propsP, cp + POLL_INTERVAL) ∧
    AztechBulb.pollRun updB (ib :: restB) (propsB, cb) =
      AztechBulb.pollRun updB restB (propsB, cb + POLL_INTERVAL) := by
  refine ⟨rfl, plug_cycle_unchanged updP ip propsP hp,
    bulb_cycle_unchanged updB ib propsB hb, ?_, ?_⟩
  · rw [AztechPlug.pollRun, plug_cycle_unchanged updP ip propsP hp]
  · rw [AztechBulb.pollRun, bulb_cycle_unchanged updB ib propsB hb]

/-- C3 witness: a cycle whose status fetch raises leaves a concrete
property list unchanged and the run continues at clock 5. -/
theorem poll_fetch_failure_skips_cycle_witness :
    exPlugFail.fetchFailed = true ∧ exBulbFail.fetchFailed = true ∧
    (POLL_INTERVAL = 5 ∧
     AztechPlug.pollCycle (fun (p : List Bool) _ _ => p) exPlugFail [true] = [true] ∧
     AztechBulb.pollCycle (fun (p : List Bool) _ _ _ => p) exBulbFail [true] = [true] ∧
     AztechPlug.pollRun (fun (p : List Bool) _ _ => p) (exPlugFail :: []) ([true], 0) =
       AztechPlug.pollRun (fun (p : List Bool) _ _ => p) [] ([true], 0 + POLL_INTERVAL) ∧
     AztechBulb.pollRun (fun (p : List Bool) _ _ _ => p) (exBulbFail :: []) ([true], 0) =
       AztechBulb.pollRun (fun (p : List Bool) _ _ _ => p) [] ([true], 0 + POLL_INTERVAL)) :=
  ⟨by decide, by decide,
   poll_fetch_failure_skips_cycle (fun p _ _ => p) (fun p _ _ _ => p)
     exPlugFail exBulbFail [] [] [true] [true] 0 0 (by decide) (by decide)⟩

/-- C6: the SmartPlug capability tag is present iff the status's
`dev_name` does not contain the substring "Light Switch"; a status with no
`dev_name` field also receives the tag. -/
theorem plug_smartplug_tag (dev : KylaDev) (index : Int) (d : PlugDevice)
    (h : AztechPlug.build dev index = some d) :
    "SmartPlug" ∈ d.typeTags ↔
      ∀ n ∈ dev.sys_info.dev_name, strContainsSub n "Light Switch" = false := by
  unfold AztechPlug.build at h
  rw [Option.map_eq_some'] at h
  obtain ⟨onVal, hon, hd⟩ := h
  subst hd
  cases hdn : dev.sys_info.dev_name with
  | none =>
    cases hhe : AztechPlug.has_emeter dev.sys_info <;>
    cases hpw : AztechDevice.power dev.emeter_realtime <;>
    cases hbr : dev.sys_info.brightness <;>
      simp [hdn, hhe, hpw, hbr]
  | some n =>
    cases hc : strContainsSub n "Light Switch" <;>
    cases hhe : AztechPlug.has_emeter dev.sys_info <;>
    cases hpw : AztechDevice.power dev.emeter_realtime <;>
    cases hbr : dev.sys_info.brightness <;>
      simp [hdn, hhe, hpw, hbr, hc]

/-- C6 witness: a device named "Smart Wi-Fi Light Switch" is built without
the SmartPlug tag. -/
theorem plug_smartplug_tag_witness :
    ("SmartPlug" ∈ exSwitchBuilt.typeTags ↔
      ∀ n ∈ exDevSwitch.sys_info.dev_name,
        strContainsSub n "Light Switch" = false) ∧
    "SmartPlug" ∉ exSwitchBuilt.typeTags :=
  ⟨plug_smartplug_tag exDevSwitch (-1) exSwitchBuilt (by decide), by decide⟩

/-- C2 (amended): the EnergyMonitor tag is present iff the colon-separated
feature list contains the energy-meter token AND the separately fetched
energy snapshot yields a present power reading; whenever the feature token
is present the energy snapshot is fetched, and power/voltage/current
properties are created exactly for the readings that are present. -/
theorem plug_energy_monitor (dev : KylaDev) (index : Int) (d : PlugDevice)
    (h : AztechPlug.build dev index = some d) :
    (AztechPlug.has_emeter dev.sys_info = true ↔
      SmartDevice.FEATURE_ENERGY_METER ∈ pySplit dev.sys_info.feature ':') ∧
    d.fetchedEmeter = AztechPlug.has_emeter dev.sys_info ∧
    ("EnergyMonitor" ∈ d.typeTags ↔
      AztechPlug.has_emeter dev.sys_info = true ∧
      (AztechDevice.power dev.emeter_realtime).isSome = true) ∧
    (AztechPlug.has_emeter dev.sys_info = true →
      List.lookup "instantaneousPower" d.properties =
        (AztechDevice.power dev.emeter_realtime).map
          (fun v => ⟨"instantaneousPower", powerMeta, PropValue.n v⟩) ∧
      List.lookup "voltage" d.properties =
        (AztechDevice.voltage dev.emeter_realtime).map
          (fun v => ⟨"voltage", voltageMeta, PropValue.n v⟩) ∧
      List.lookup "current" d.properties =
        (AztechDevice.current dev.emeter_realtime).map
          (fun v => ⟨"current", currentMeta, PropValue.n v⟩)) ∧
    (AztechPlug.has_emeter dev.sys_info = false →
      List.lookup "instantaneousPower" d.properties = none ∧
      List.lookup "voltage" d.properties = none ∧
      List.lookup "current" d.properties = none) := by
  unfold AztechPlug.build at h
  rw [Option.map_eq_some'] at h
  obtain ⟨onVal, hon, hd⟩ := h
  subst hd
  refine ⟨?_, rfl, ?_, ?_, ?_⟩
  · simp [AztechPlug.has_emeter]
  · rcases hdn : dev.sys_info.dev_name with _ | n
    · cases hhe : AztechPlug.has_emeter dev.sys_info <;>
      cases hpw : AztechDevice.power dev.emeter_realtime <;>
      cases hbr : dev.sys_info.brightness <;>
        simp [hdn, hhe, hpw, hbr]
    · cases hc : strContainsSub n "Light Switch" <;>
      cases hhe : AztechPlug.has_emeter dev.sys_info <;>
      cases hpw : AztechDevice.power dev.emeter_realtime <;>
      cases hbr : dev.sys_info.brightness <;>
        simp [hdn, hc, hhe, hpw, hbr]
  · intro hhe
    cases hpw : AztechDevice.power dev.emeter_realtime <;>
    cases hvl : AztechDevice.voltage dev.emeter_realtime <;>
    cases hcu : AztechDevice.current dev.emeter_realtime <;>
    cases hbr : dev.sys_info.brightness <;>
      simp [hhe, hpw, hvl, hcu, hbr, optEntry, List.lookup]
  · intro hhe
    cases hbr : dev.sys_info.brightness <;>
      simp [hhe, hbr, optEntry, List.lookup]

/-- C2 counterexample: a status with feature list "TIM:ENE" whose emeter
snapshot carries no readings is built WITHOUT the EnergyMonitor tag, so
tag presence is not equivalent to feature-token presence. -/
theorem plug_energy_monitor_iff_counterexample :
    AztechPlug.build exDevEneEmpty (-1) = some exEneEmptyBuilt ∧
    AztechPlug.has_emeter exDevEneEmpty.sys_info = true ∧
    SmartDevice.FEATURE_ENERGY_METER ∈ pySplit exDevEneEmpty.sys_info.feature ':' ∧
    "EnergyMonitor" ∉ exEneEmptyBuilt.typeTags :=
  ⟨by decide, by decide, by decide, by decide⟩

/-- C2 witness: a feature-flagged device with a present power reading gets
the tag and the power property; a device without the feature token gets no
energy properties. -/
theorem plug_energy_monitor_witness :
    ("EnergyMonitor" ∈ exEnePowBuilt.typeTags ↔
      AztechPlug.has_emeter exDevEnePow.sys_info = true ∧
      (AztechDevice.power exDevEnePow.emeter_realtime).isSome = true) ∧
    (List.lookup "instantaneousPower" exEnePowBuilt.properties =
      (AztechDevice.power exDevEnePow.emeter_realtime).map
        (fun v => ⟨"instantaneousPower", powerMeta, PropValue.n v⟩) ∧
     List.lookup "voltage" exEnePowBuilt.properties =
      (AztechDevice.voltage exDevEnePow.emeter_realtime).map
        (fun v => ⟨"voltage", voltageMeta, PropValue.n v⟩) ∧
     List.lookup "current" exEnePowBuilt.properties =
      (AztechDevice.current exDevEnePow.emeter_realtime).map
        (fun v => ⟨"current", currentMeta, PropValue.n v⟩)) ∧
    (List.lookup "instantaneousPower" exSwitchBuilt.properties = none ∧
     List.lookup "voltage" exSwitchBuilt.properties = none ∧
     List.lookup "current" exSwitchBuilt.properties = none) :=
  ⟨(plug_energy_monitor exDevEnePow (-1) exEnePowBuilt (by decide)).2.2.1,
   (plug_energy_monitor exDevEnePow (-1) exEnePowBuilt (by decide)).2.2.2.1
     (by decide),
   (plug_energy_monitor exDevSwitch (-1) exSwitchBuilt (by decide)).2.2.2.2
     (by decide)⟩

/-- C7: the on/off property's value is the boolean of the selected child's
state flag when the index is nonnegative, and the boolean of the top-level
relay-state flag otherwise. -/
theorem plug_on_value (dev : KylaDev) (index : Int) (d : PlugDevice)
    (h : AztechPlug.build dev index = some d) :
    (∀ c, 0 ≤ index → dev.sys_info.children.get? index.toNat = some c →
      List.lookup "on" d.properties =
        some ⟨"on", onMeta, PropValue.b (c.state != 0)⟩) ∧
    (index < 0 →
      List.lookup "on" d.properties =
        some ⟨"on", onMeta, PropValue.b (dev.sys_info.relay_state != 0)⟩) := by
  unfold AztechPlug.build at h
  rw [Option.map_eq_some'] at h
  obtain ⟨onVal, hon, hd⟩ := h
  subst hd
  have hlk : ∀ v : Bool,
      List.lookup "on"
        ((match (if AztechPlug.has_emeter dev.sys_info = true
                 then some dev.emeter_realtime else none : Option Emeter) with
          | some em =>
            optEntry (AztechDevice.power em) (fun v =>
              ("instantaneousPower",
               ⟨"instantaneousPower", powerMeta, PropValue.n v⟩))
            ++ (optEntry (AztechDevice.voltage em) (fun v =>
                 ("voltage", ⟨"voltage", voltageMeta, PropValue.n v⟩))
            ++ optEntry (AztechDevice.current em) (fun v =>
                 ("current", ⟨"current", currentMeta, PropValue.n v⟩)))
          | none => [])
         ++ ((match dev.sys_info.brightness with
              | some b => [("level", ⟨"level", levelMeta, PropValue.i b⟩)]
              | none => [])
         ++ [("on", ⟨"on", onMeta, PropValue.b v⟩),
             ("led-on",
              ⟨"led-on", ledMeta,
               PropValue.b (AztechPlug.is_led_on dev.sys_info)⟩)])) =
      some ⟨"on", onMeta, PropValue.b v⟩ := by
    intro v
    cases hhe : AztechPlug.has_emeter dev.sys_info <;>
    cases hpw : AztechDevice.power dev.emeter_realtime <;>
    cases hvl : AztechDevice.voltage dev.emeter_realtime <;>
    cases hcu : AztechDevice.current dev.emeter_realtime <;>
    cases hbr : dev.sys_info.brightness <;>
      simp [hhe, hpw, hvl, hcu, hbr, optEntry, List.lookup]
  constructor
  · intro c hidx hchild
    rw [AztechPlug.is_on, if_pos hidx, hchild] at hon
    simp only [Option.map_some', Option.some.injEq] at hon
    subst hon
    exact hlk _
  · intro hneg
    rw [AztechPlug.is_on, if_neg (by omega)] at hon
    simp only [Option.some.injEq] at hon
    subst hon
    exact hlk _

/-- C7 witness: a one-child device at index 0 reads the child state; a
device at index -1 reads the relay state. -/
theorem plug_on_value_witness :
    List.lookup "on" exChildBuilt.properties =
      some ⟨"on", onMeta,
        PropValue.b (({ aliasName := "outlet 1", state := 1 } : ChildInfo).state != 0)⟩ ∧
    List.lookup "on" exSwitchBuilt.properties =
      some ⟨"on", onMeta, PropValue.b (exDevSwitch.sys_info.relay_state != 0)⟩ :=
  ⟨(plug_on_value exDevChild 0 exChildBuilt (by decide)).1
      { aliasName := "outlet 1", state := 1 } (by decide) (by decide),
   (plug_on_value exDevSwitch (-1) exSwitchBuilt (by decide)).2 (by decide)⟩

/-- C8: the dimmable capability (MultiLevelSwitch tag plus an integer
level property bounded by 0 and 100) is exposed iff a `brightness` field
exists in the status, and the level property's initial value is that
field's value. -/
theorem plug_dimmable_level (dev : KylaDev) (index : Int) (d : PlugDevice)
    (h : AztechPlug.build dev index = some d) :
    ("MultiLevelSwitch" ∈ d.typeTags ↔
      AztechPlug.is_dimmable dev.sys_info = true) ∧
    AztechPlug.is_dimmable dev.sys_info = dev.sys_info.brightness.isSome ∧
    List.lookup "level" d.properties =
      dev.sys_info.brightness.map
        (fun b => ⟨"level", levelMeta, PropValue.i b⟩) ∧
    levelMeta.minimum = some 0 ∧ levelMeta.maximum = some 100 ∧
    levelMeta.type = "integer" := by
  unfold AztechPlug.build at h
  rw [Option.map_eq_some'] at h
  obtain ⟨onVal, hon, hd⟩ := h
  subst hd
  refine ⟨?_, rfl, ?_, rfl, rfl, rfl⟩
  · rcases hdn : dev.sys_info.dev_name with _ | n
    · cases hhe : AztechPlug.has_emeter dev.sys_info <;>
      cases hpw : AztechDevice.power dev.emeter_realtime <;>
      cases hbr : dev.sys_info.brightness <;>
        simp [hdn, hhe, hpw, hbr, AztechPlug.is_dimmable]
    · cases hc : strContainsSub n "Light Switch" <;>
      cases hhe : AztechPlug.has_emeter dev.sys_info <;>
      cases hpw : AztechDevice.power dev.emeter_realtime <;>
      cases hbr : dev.sys_info.brightness <;>
        simp [hdn, hc, hhe, hpw, hbr, AztechPlug.is_dimmable]
  · cases hhe : AztechPlug.has_emeter dev.sys_info <;>
    cases hpw : AztechDevice.power dev.emeter_realtime <;>
    cases hvl : AztechDevice.voltage dev.emeter_realtime <;>
    cases hcu : AztechDevice.current dev.emeter_realtime <;>
    cases hbr : dev.sys_info.brightness <;>
      simp [hhe, hpw, hvl, hcu, hbr, optEntry, List.lookup]

/-- C8 witness: a status with `brightness = 75` is built with the
MultiLevelSwitch tag and a level property valued 75. -/
theorem plug_dimmable_level_witness :
    ("MultiLevelSwitch" ∈ exDimBuilt.typeTags ↔
      AztechPlug.is_dimmable exDevDim.sys_info = true) ∧
    AztechPlug.is_dimmable exDevDim.sys_info =
      exDevDim.sys_info.brightness.isSome ∧
    List.lookup "level" exDimBuilt.properties =
      exDevDim.sys_info.brightness.map
        (fun b => ⟨"level", levelMeta, PropValue.i b⟩) ∧
    levelMeta.minimum = some 0 ∧ levelMeta.maximum = some 100 ∧
    levelMeta.type = "integer" :=
  plug_dimmable_level exDevDim (-1) exDimBuilt (by decide)

/-- C9 (amended): the led-on property's value is `bool(1 - led_off)`,
which is true exactly when `led_off ≠ 1`; this coincides with the logical
negation of the flag's truthiness only when `led_off` is 0 or 1. -/
theorem plug_led_on_value (dev : KylaDev) (index : Int) (d : PlugDevice)
    (h : AztechPlug.build dev index = some d) :
    List.lookup "led-on" d.properties =
      some ⟨"led-on", ledMeta,
        PropValue.b (AztechPlug.is_led_on dev.sys_info)⟩ ∧
    (AztechPlug.is_led_on dev.sys_info = true ↔ dev.sys_info.led_off ≠ 1) := by
  unfold AztechPlug.build at h
  rw [Option.map_eq_some'] at h
  obtain ⟨onVal, hon, hd⟩ := h
  subst hd
  constructor
  · cases hhe : AztechPlug.has_emeter dev.sys_info <;>
    cases hpw : AztechDevice.power dev.emeter_realtime <;>
    cases hvl : AztechDevice.voltage dev.emeter_realtime <;>
    cases hcu : AztechDevice.current dev.emeter_realtime <;>
    cases hbr : dev.sys_info.brightness <;>
      simp [hhe, hpw, hvl, hcu, hbr, optEntry, List.lookup]
  · rw [AztechPlug.is_led_on]
    simp only [bne_iff_ne, ne_eq]
    omega

/-- C9 counterexample: with `led_off = 2` the flag is truthy, yet the
built led-on property's value is true, refuting "true exactly when the
led_off flag is falsy". -/
theorem plug_led_negation_counterexample :
    AztechPlug.build exDevLed2 (-1) = some exLed2Built ∧
    exDevLed2.sys_info.led_off ≠ 0 ∧
    List.lookup "led-on" exLed2Built.properties =
      some ⟨"led-on", ledMeta, PropValue.b true⟩ ∧
    ¬ (AztechPlug.is_led_on exDevLed2.sys_info = true ↔
        exDevLed2.sys_info.led_off = 0) :=
  ⟨by decide, by decide, by decide, by decide⟩

/-- C9 witness: applying the amended statement at the `led_off = 2`
device. -/
theorem plug_led_on_value_witness :
    List.lookup "led-on" exLed2Built.properties =
      some ⟨"led-on", ledMeta,
        PropValue.b (AztechPlug.is_led_on exDevLed2.sys_info)⟩ ∧
    (AztechPlug.is_led_on exDevLed2.sys_info = true ↔
      exDevLed2.sys_info.led_off ≠ 1) :=
  plug_led_on_value exDevLed2 (-1) exLed2Built (by decide)

/-- C5: a read-only enumerated colorMode property with values
{"color","temperature"} is created exactly when the status indicates both
color support and variable-color-temperature support; its value is
"color" exactly when the (off-state-resolved) color-temperature reading
is zero, else "temperature". -/
theorem bulb_color_mode_property (f : Int → Int → Int → String)
    (dev : KylaDev) :
    List.lookup "colorMode" (AztechBulb.build f dev).properties =
      (if AztechBulb.is_color dev.sys_info &&
          AztechBulb.is_variable_color_temp dev.sys_info then
        some ⟨"colorMode", colorModeMeta,
          PropValue.s (AztechBulb.color_mode dev.light_state)⟩
      else none) ∧
    colorModeMeta.enum = some ["color", "temperature"] ∧
    colorModeMeta.readOnly = some true ∧
    colorModeMeta.type = "string" ∧
    (AztechBulb.color_mode dev.light_state = "color" ↔
      AztechBulb.color_temp dev.light_state = 0) := by
  refine ⟨?_, rfl, rfl, rfl, ?_⟩
  · unfold AztechBulb.build
    cases hc : AztechBulb.is_color dev.sys_info <;>
    cases hv : AztechBulb.is_variable_color_temp dev.sys_info <;>
    cases hd : AztechBulb.is_dimmable dev.sys_info <;>
    cases hp : AztechDevice.power dev.emeter_realtime <;>
    cases hvo : AztechDevice.voltage dev.emeter_realtime <;>
    cases hcu : AztechDevice.current dev.emeter_realtime <;>
      simp [hc, hv, hd, hp, hvo, hcu, optEntry, List.lookup]
  · rw [AztechBulb.color_mode, AztechBulb.color_temp]
    cases hon : AztechBulb.is_on dev.light_state <;>
      simp only [hon, if_true, if_false, Bool.false_eq_true] <;>
      split <;> simp_all

/-- C10: the ColorControl tag appears in the built bulb's type list when
the status indicates color support or variable-color-temperature support
(including the temperature-only case), and it appears exactly once even
when both are present. -/
theorem bulb_colorcontrol_tag_once (f : Int → Int → Int → String)
    (dev : KylaDev) :
    ((AztechBulb.build f dev).typeTags).count "ColorControl" =
      (if AztechBulb.is_color dev.sys_info ||
          AztechBulb.is_variable_color_temp dev.sys_info then 1 else 0) := by
  unfold AztechBulb.build
  cases hc : AztechBulb.is_color dev.sys_info <;>
  cases hv : AztechBulb.is_variable_color_temp dev.sys_info <;>
  cases hp : AztechDevice.power dev.emeter_realtime <;>
    simp [hc, hv, hp, List.count_cons, List.count_append]
